import Mathlib

/-!
Shallow embedding of `src/dsa/price_trend.py` (class `PriceAnalyzer`).

Python floats are modelled as exact rationals (the constants 0.02, 0.95,
1.05, 0.98, 1.02, and the thresholds -5, 0, 10 are all exactly
representable intents of the source), `int(...)` is truncation toward
zero, `statistics.mean` is the exact arithmetic mean, and the
`collections.deque(maxlen=n)` bounded queue is a list that keeps the last
`n` appended elements.  The random draws of `random.uniform` and
`random.choice` are passed in explicitly: `trend` is the chosen trend and
`noise i` is the uniform draw consumed at loop iteration `i`.
A raised `ZeroDivisionError` is modelled as `none`; a `ValueError` raised
by the `deque` constructor is modelled as `Except.error`.
-/

namespace PriceTrend

/-- Python `int(q)` on a float/rational: truncation toward zero. -/
def truncQ (q : ℚ) : ℤ :=
  if q < 0 then ⌈q⌉ else ⌊q⌋

/-- The three values of `random.choice(['stable', 'increasing', 'decreasing'])`. -/
inductive Trend where
  | stable
  | increasing
  | decreasing
deriving DecidableEq

/-- State of a `PriceAnalyzer` instance: the `history_size` attribute and
the contents of `self.price_queue` (oldest first). -/
structure PriceAnalyzer where
  history_size : ℕ
  price_queue : List ℤ
deriving DecidableEq

/-- `deque(maxlen := maxlen).append`: the appended element goes to the right,
and only the last `maxlen` elements are kept (the oldest is evicted). -/
def dequeAppend (maxlen : ℕ) (q : List ℤ) (x : ℤ) : List ℤ :=
  (q ++ [x]).drop ((q ++ [x]).length - maxlen)

/-- `PriceAnalyzer.__init__(history_size)`: Python's
`deque(maxlen=history_size)` raises `ValueError` for a negative `maxlen`
and accepts any other integer (including 0). -/
def init (history_size : ℤ) : Except String PriceAnalyzer :=
  if history_size < 0 then
    Except.error "maxlen must be non-negative"
  else
    Except.ok ⟨history_size.toNat, []⟩

/-- The price computed in iteration `i` of the loop of
`generate_simulated_history`, for history size `n`, chosen trend `trend`,
uniform draw `noise i` and `base_price = base`:
`int(base * variation)` for stable,
`int(base * (1.0 - 0.02 * (n - i)) * noise)` for increasing,
`int(base * (1.0 + 0.02 * (n - i)) * noise)` for decreasing. -/
def simulatedPrice (n : ℕ) (trend : Trend) (noise : ℕ → ℚ) (base : ℚ) (i : ℕ) : ℤ :=
  match trend with
  | Trend.stable => truncQ (base * noise i)
  | Trend.increasing => truncQ (base * (1 - 2/100 * (((n : ℤ) - (i : ℤ) : ℤ) : ℚ)) * noise i)
  | Trend.decreasing => truncQ (base * (1 + 2/100 * (((n : ℤ) - (i : ℤ) : ℤ) : ℚ)) * noise i)

/-- `PriceAnalyzer.generate_simulated_history(current_price)`: clears the
queue, then for `i in range(self.history_size)` appends the simulated
price for iteration `i`; returns `list(self.price_queue)` together with
the new state. -/
def generate_simulated_history (a : PriceAnalyzer) (current_price : ℚ)
    (trend : Trend) (noise : ℕ → ℚ) : List ℤ × PriceAnalyzer :=
  let q := (List.range a.history_size).foldl
    (fun acc i => dequeAppend a.history_size acc
      (simulatedPrice a.history_size trend noise current_price i)) []
  (q, ⟨a.history_size, q⟩)

/-- `statistics.mean` of an integer list, as an exact rational. -/
def mean (l : List ℤ) : ℚ :=
  (l.sum : ℚ) / (l.length : ℚ)

/-- Python `min` of a non-empty list (0 as junk value on `[]`, never used). -/
def listMin : List ℤ → ℤ
  | [] => 0
  | x :: xs => xs.foldl min x

/-- Python `max` of a non-empty list (0 as junk value on `[]`, never used). -/
def listMax : List ℤ → ℤ
  | [] => 0
  | x :: xs => xs.foldl max x

/-- Round half to even on an integer scale, as Python float formatting does. -/
def roundHalfEven (q : ℚ) : ℤ :=
  if q - ⌊q⌋ = 1/2 then (if ⌊q⌋ % 2 = 0 then ⌊q⌋ else ⌊q⌋ + 1) else round q

/-- Python `f-string` formatting `:.1f` of an exact rational. -/
def format1 (q : ℚ) : String :=
  let n := roundHalfEven (q * 10)
  if n < 0 then
    "-" ++ toString ((-n) / 10) ++ "." ++ toString ((-n) % 10)
  else
    toString (n / 10) ++ "." ++ toString (n % 10)

/-- `PriceAnalyzer.analyze_recommendation(current_price)`.  Returns `none`
exactly when the Python code raises `ZeroDivisionError` (empty queue is
handled first; then `diff_percent` divides by `avg_price` before any
branch is examined). -/
def analyze_recommendation (a : PriceAnalyzer) (current_price : ℚ) :
    Option (String × String) :=
  if a.price_queue.isEmpty then
    some ("UNKNOWN", "Not enough data")
  else
    let avg_price := mean a.price_queue
    let min_history := listMin a.price_queue
    let max_history := listMax a.price_queue
    if avg_price = 0 then
      none
    else
      let diff_percent := (current_price - avg_price) / avg_price * 100
      if current_price < (min_history : ℚ) then
        some ("🔥 BUY NOW", "Lowest price in recent history! Great deal.")
      else if diff_percent < -5 then
        some ("✅ BUY", "Price is " ++ format1 |diff_percent| ++ "% below average.")
      else if diff_percent < 0 then
        some ("✅ BUY", "Price is slighty below average.")
      else if diff_percent > 10 then
        some ("🛑 WAIT", "Price is " ++ format1 diff_percent ++ "% above average. Likely to drop.")
      else
        some ("⏳ WAIT", "Price is average. You might find a better deal soon.")

/-- `PriceAnalyzer.get_history()`: `list(self.price_queue)`. -/
def get_history (a : PriceAnalyzer) : List ℤ :=
  a.price_queue

/-- The non-empty branch of `analyze_recommendation`, as a function of the
mean and the minimum of the queue only (the quantities the branching
actually reads). -/
def analyzeCore (avg : ℚ) (m : ℤ) (p : ℚ) : Option (String × String) :=
  if avg = 0 then
    none
  else
    let diff_percent := (p - avg) / avg * 100
    if p < (m : ℚ) then
      some ("🔥 BUY NOW", "Lowest price in recent history! Great deal.")
    else if diff_percent < -5 then
      some ("✅ BUY", "Price is " ++ format1 |diff_percent| ++ "% below average.")
    else if diff_percent < 0 then
      some ("✅ BUY", "Price is slighty below average.")
    else if diff_percent > 10 then
      some ("🛑 WAIT", "Price is " ++ format1 diff_percent ++ "% above average. Likely to drop.")
    else
      some ("⏳ WAIT", "Price is average. You might find a better deal soon.")

/-! ### Helper lemmas -/

lemma dequeAppend_of_lt {maxlen : ℕ} {q : List ℤ} (x : ℤ) (h : q.length < maxlen) :
    dequeAppend maxlen q x = q ++ [x] := by
  unfold dequeAppend
  have h0 : (q ++ [x]).length - maxlen = 0 := by
    simp only [List.length_append, List.length_cons, List.length_nil]
    omega
  rw [h0, List.drop_zero]

lemma foldl_dequeAppend (maxlen : ℕ) (f : ℕ → ℤ) :
    ∀ (l : List ℕ) (acc : List ℤ), acc.length + l.length ≤ maxlen →
      l.foldl (fun a i => dequeAppend maxlen a (f i)) acc = acc ++ l.map f := by
  intro l
  induction l with
  | nil =>
      intro acc _
      simp
  | cons i t ih =>
      intro acc h
      simp only [List.length_cons] at h
      have hlt : acc.length < maxlen := by omega
      have hlen : (acc ++ [f i]).length + t.length ≤ maxlen := by
        simp only [List.length_append, List.length_cons, List.length_nil]
        omega
      simp only [List.foldl_cons, List.map_cons]
      rw [dequeAppend_of_lt (f i) hlt, ih (acc ++ [f i]) hlen, List.append_assoc,
        List.singleton_append]

lemma generate_fst_eq_map (a : PriceAnalyzer) (p : ℚ) (t : Trend) (noise : ℕ → ℚ) :
    (generate_simulated_history a p t noise).1
      = (List.range a.history_size).map (simulatedPrice a.history_size t noise p) := by
  unfold generate_simulated_history
  simp only
  rw [foldl_dequeAppend a.history_size (simulatedPrice a.history_size t noise p)
    (List.range a.history_size) [] (by simp)]
  simp

lemma generate_snd_queue (a : PriceAnalyzer) (p : ℚ) (t : Trend) (noise : ℕ → ℚ) :
    ((generate_simulated_history a p t noise).2).price_queue
      = (generate_simulated_history a p t noise).1 := rfl

lemma analyze_of_empty (a : PriceAnalyzer) (p : ℚ) (h : a.price_queue = []) :
    analyze_recommendation a p = some ("UNKNOWN", "Not enough data") := by
  simp only [analyze_recommendation]
  rw [if_pos (by simp [h])]

lemma analyze_zero_avg (a : PriceAnalyzer) (p : ℚ)
    (hne : a.price_queue ≠ []) (h0 : mean a.price_queue = 0) :
    analyze_recommendation a p = none := by
  simp only [analyze_recommendation]
  rw [if_neg (by simp [hne]), if_pos h0]

lemma analyze_strong_buy (a : PriceAnalyzer) (p : ℚ)
    (hne : a.price_queue ≠ []) (h0 : mean a.price_queue ≠ 0)
    (hmin : p < (listMin a.price_queue : ℚ)) :
    analyze_recommendation a p
      = some ("🔥 BUY NOW", "Lowest price in recent history! Great deal.") := by
  simp only [analyze_recommendation]
  rw [if_neg (by simp [hne]), if_neg h0, if_pos hmin]

lemma analyze_buy_pct (a : PriceAnalyzer) (p : ℚ)
    (hne : a.price_queue ≠ []) (h0 : mean a.price_queue ≠ 0)
    (hmin : ¬ p < (listMin a.price_queue : ℚ))
    (h5 : (p - mean a.price_queue) / mean a.price_queue * 100 < -5) :
    analyze_recommendation a p
      = some ("✅ BUY", "Price is "
          ++ format1 |(p - mean a.price_queue) / mean a.price_queue * 100|
          ++ "% below average.") := by
  simp only [analyze_recommendation]
  rw [if_neg (by simp [hne]), if_neg h0, if_neg hmin, if_pos h5]

lemma analyze_buy_generic (a : PriceAnalyzer) (p : ℚ)
    (hne : a.price_queue ≠ []) (h0 : mean a.price_queue ≠ 0)
    (hmin : ¬ p < (listMin a.price_queue : ℚ))
    (h5 : ¬ (p - mean a.price_queue) / mean a.price_queue * 100 < -5)
    (hneg : (p - mean a.price_queue) / mean a.price_queue * 100 < 0) :
    analyze_recommendation a p
      = some ("✅ BUY", "Price is slighty below average.") := by
  simp only [analyze_recommendation]
  rw [if_neg (by simp [hne]), if_neg h0, if_neg hmin, if_neg h5, if_pos hneg]

lemma analyze_wait_high (a : PriceAnalyzer) (p : ℚ)
    (hne : a.price_queue ≠ []) (h0 : mean a.price_queue ≠ 0)
    (hmin : ¬ p < (listMin a.price_queue : ℚ))
    (h5 : ¬ (p - mean a.price_queue) / mean a.price_queue * 100 < -5)
    (hneg : ¬ (p - mean a.price_queue) / mean a.price_queue * 100 < 0)
    (h10 : (p - mean a.price_queue) / mean a.price_queue * 100 > 10) :
    analyze_recommendation a p
      = some ("🛑 WAIT", "Price is "
          ++ format1 ((p - mean a.price_queue) / mean a.price_queue * 100)
          ++ "% above average. Likely to drop.") := by
  simp only [analyze_recommendation]
  rw [if_neg (by simp [hne]), if_neg h0, if_neg hmin, if_neg h5, if_neg hneg, if_pos h10]

lemma analyze_wait_default (a : PriceAnalyzer) (p : ℚ)
    (hne : a.price_queue ≠ []) (h0 : mean a.price_queue ≠ 0)
    (hmin : ¬ p < (listMin a.price_queue : ℚ))
    (h5 : ¬ (p - mean a.price_queue) / mean a.price_queue * 100 < -5)
    (hneg : ¬ (p - mean a.price_queue) / mean a.price_queue * 100 < 0)
    (h10 : ¬ (p - mean a.price_queue) / mean a.price_queue * 100 > 10) :
    analyze_recommendation a p
      = some ("⏳ WAIT", "Price is average. You might find a better deal soon.") := by
  simp only [analyze_recommendation]
  rw [if_neg (by simp [hne]), if_neg h0, if_neg hmin, if_neg h5, if_neg hneg, if_neg h10]

lemma analyze_eq_core (a : PriceAnalyzer) (p : ℚ) (hne : a.price_queue ≠ []) :
    analyze_recommendation a p
      = analyzeCore (mean a.price_queue) (listMin a.price_queue) p := by
  simp only [analyze_recommendation, analyzeCore]
  rw [if_neg (show ¬(a.price_queue.isEmpty = true) by simp [hne])]

lemma roundHalfEven_intCast (z : ℤ) : roundHalfEven (z : ℚ) = z := by
  unfold roundHalfEven
  rw [Int.floor_intCast, if_neg (by norm_num), round_intCast]

lemma format1_intCast_nonneg (z : ℤ) (hz : 0 ≤ z) :
    format1 (z : ℚ) = toString z ++ "." ++ "0" := by
  simp only [format1]
  have h : roundHalfEven ((z : ℚ) * 10) = z * 10 := by
    have e : ((z : ℚ) * 10) = ((z * 10 : ℤ) : ℚ) := by push_cast; ring
    rw [e, roundHalfEven_intCast]
  have h1 : z * 10 / 10 = z := by omega
  have h2 : z * 10 % 10 = 0 := by omega
  have h3 : toString (0 : ℤ) = "0" := by decide
  rw [h, if_neg (by omega), h1, h2, h3]

lemma format1_six : format1 6 = "6.0" := by
  have e : (6 : ℚ) = ((6 : ℤ) : ℚ) := by norm_num
  rw [e, format1_intCast_nonneg 6 (by omega)]
  decide

lemma format1_eleven : format1 11 = "11.0" := by
  have e : (11 : ℚ) = ((11 : ℤ) : ℚ) := by norm_num
  rw [e, format1_intCast_nonneg 11 (by omega)]
  decide

lemma truncQ_nonneg {q : ℚ} (h : 0 ≤ q) : 0 ≤ truncQ q := by
  unfold truncQ
  rw [if_neg (not_lt.mpr h)]
  exact Int.le_floor.mpr (by exact_mod_cast h)

lemma mean_rep15 : mean (List.replicate 15 (100 : ℤ)) = 100 := by
  unfold mean
  rw [List.sum_replicate, List.length_replicate]
  norm_num

lemma listMin_rep15 : listMin (List.replicate 15 (100 : ℤ)) = 100 := by decide

lemma rep15_ne : List.replicate 15 (100 : ℤ) ≠ [] := by decide

lemma mean_single : mean [(100 : ℤ)] = 100 := by
  unfold mean
  norm_num

lemma mean_double : mean [(100 : ℤ), 100] = 100 := by
  unfold mean
  norm_num [List.sum_cons, List.sum_nil]

lemma mean_triple : mean [(100 : ℤ), 100, 100] = 100 := by
  unfold mean
  norm_num [List.sum_cons, List.sum_nil]

lemma mean_pair : mean [(100 : ℤ), 200] = 150 := by
  unfold mean
  norm_num [List.sum_cons, List.sum_nil]

/-! ### Claims -/

/-- Claim C1 as stated is false: on the fifteen-times-100 history,
`analyze_recommendation 94` does not return the "✅ BUY" tier with the
6.0% explanation, because 94 is below the history minimum 100 and the
strongest-buy branch fires first. -/
theorem C1_counterexample :
    analyze_recommendation ⟨15, List.replicate 15 100⟩ 94
      ≠ some ("✅ BUY", "Price is 6.0% below average.") := by
  have h0 : mean (List.replicate 15 (100 : ℤ)) ≠ 0 := by
    rw [mean_rep15]; norm_num
  have hmin : (94 : ℚ) < ((listMin (List.replicate 15 (100 : ℤ))) : ℚ) := by
    rw [listMin_rep15]; norm_num
  rw [analyze_strong_buy ⟨15, List.replicate 15 100⟩ 94 rep15_ne h0 hmin]
  decide

/-- Claim C1 (amended): on a history of fifteen entries all equal to 100
(mean 100, minimum 100), `analyze_recommendation 94` and
`analyze_recommendation 98` both return the strongest buy tier
"🔥 BUY NOW" with the lowest-price explanation (both prices are below the
history minimum, and that check fires first); `analyze_recommendation 111`
returns the "🛑 WAIT" tier with the percentage 11.0 formatted to one
decimal place; and `analyze_recommendation 105` returns the default
"⏳ WAIT" tier with the generic explanation. -/
theorem C1_amended_thresholds :
    analyze_recommendation ⟨15, List.replicate 15 100⟩ 94
        = some ("🔥 BUY NOW", "Lowest price in recent history! Great deal.")
      ∧ analyze_recommendation ⟨15, List.replicate 15 100⟩ 98
        = some ("🔥 BUY NOW", "Lowest price in recent history! Great deal.")
      ∧ analyze_recommendation ⟨15, List.replicate 15 100⟩ 111
        = some ("🛑 WAIT", "Price is 11.0% above average. Likely to drop.")
      ∧ analyze_recommendation ⟨15, List.replicate 15 100⟩ 105
        = some ("⏳ WAIT", "Price is average. You might find a better deal soon.") := by
  have h0 : mean (List.replicate 15 (100 : ℤ)) ≠ 0 := by
    rw [mean_rep15]; norm_num
  refine ⟨?_, ?_, ?_, ?_⟩
  · exact analyze_strong_buy ⟨15, List.replicate 15 100⟩ 94 rep15_ne h0
      (by rw [listMin_rep15]; norm_num)
  · exact analyze_strong_buy ⟨15, List.replicate 15 100⟩ 98 rep15_ne h0
      (by rw [listMin_rep15]; norm_num)
  · rw [analyze_wait_high ⟨15, List.replicate 15 100⟩ 111 rep15_ne h0
      (by rw [listMin_rep15]; norm_num)
      (by rw [mean_rep15]; norm_num)
      (by rw [mean_rep15]; norm_num)
      (by rw [mean_rep15]; norm_num)]
    have e : ((111 : ℚ) - mean (List.replicate 15 (100 : ℤ)))
        / mean (List.replicate 15 (100 : ℤ)) * 100 = 11 := by
      rw [mean_rep15]; norm_num
    rw [e, format1_eleven]
    decide
  · exact analyze_wait_default ⟨15, List.replicate 15 100⟩ 105 rep15_ne h0
      (by rw [listMin_rep15]; norm_num)
      (by rw [mean_rep15]; norm_num)
      (by rw [mean_rep15]; norm_num)
      (by rw [mean_rep15]; norm_num)

/-- Claim C2 as stated is false: on the history [100, 100, 100] (minimum
100), `analyze_recommendation 100` — a current price exactly equal to the
history minimum — returns the default "⏳ WAIT" tier, not the strongest buy
tier, because the minimum check uses a strict comparison. -/
theorem C2_counterexample :
    listMin [100, 100, 100] = (100 : ℤ)
      ∧ analyze_recommendation ⟨3, [100, 100, 100]⟩ 100
        = some ("⏳ WAIT", "Price is average. You might find a better deal soon.")
      ∧ ("⏳ WAIT" : String) ≠ "🔥 BUY NOW" := by
  refine ⟨by decide, ?_, by decide⟩
  have hm : listMin [(100 : ℤ), 100, 100] = 100 := by decide
  exact analyze_wait_default ⟨3, [100, 100, 100]⟩ 100 (by decide)
    (by rw [mean_triple]; norm_num)
    (by rw [hm]; norm_num)
    (by rw [mean_triple]; norm_num)
    (by rw [mean_triple]; norm_num)
    (by rw [mean_triple]; norm_num)

/-- Claim C2 (amended): for every non-empty history with non-zero mean,
the minimum-price check is evaluated before the percentage checks: a
current price strictly below the history minimum returns the strongest
buy tier regardless of `diff_percent`, while a current price exactly
equal to the history minimum never returns the strongest buy label (it
falls through to the percentage checks; note a price equal to the minimum
can never be above the mean, so the scenario "equal to minimum yet above
average" is vacuous). -/
theorem C2_amended_min_precedence (a : PriceAnalyzer) (p : ℚ)
    (hne : a.price_queue ≠ []) (h0 : mean a.price_queue ≠ 0) :
    (p < (listMin a.price_queue : ℚ) →
        analyze_recommendation a p
          = some ("🔥 BUY NOW", "Lowest price in recent history! Great deal."))
      ∧ (p = (listMin a.price_queue : ℚ) →
          ∀ expl : String,
            analyze_recommendation a p ≠ some ("🔥 BUY NOW", expl)) := by
  constructor
  · intro h
    exact analyze_strong_buy a p hne h0 h
  · intro heq expl
    have hmin : ¬ p < (listMin a.price_queue : ℚ) := by
      rw [heq]
      exact lt_irrefl _
    by_cases h5 : (p - mean a.price_queue) / mean a.price_queue * 100 < -5
    · rw [analyze_buy_pct a p hne h0 hmin h5]
      simp
    · by_cases hneg : (p - mean a.price_queue) / mean a.price_queue * 100 < 0
      · rw [analyze_buy_generic a p hne h0 hmin h5 hneg]
        simp
      · by_cases h10 : (p - mean a.price_queue) / mean a.price_queue * 100 > 10
        · rw [analyze_wait_high a p hne h0 hmin h5 hneg h10]
          simp
        · rw [analyze_wait_default a p hne h0 hmin h5 hneg h10]
          simp

/-- Witness for C2 (amended) at the concrete history [100, 200] and
current price 50 (strictly below the minimum 100). -/
theorem C2_amended_min_precedence_witness :
    analyze_recommendation ⟨2, [100, 200]⟩ 50
      = some ("🔥 BUY NOW", "Lowest price in recent history! Great deal.") :=
  (C2_amended_min_precedence ⟨2, [100, 200]⟩ 50 (by decide)
    (by rw [mean_pair]; norm_num)).1 (by norm_num [listMin])

/-- Claim C3: for every positive capacity `n`, from any prior queue
contents, `generate_simulated_history` leaves `get_history()` with length
exactly `n`. -/
theorem C3_capacity_invariant (n : ℕ) (hpos : 0 < n) (q0 : List ℤ) (p : ℚ)
    (t : Trend) (noise : ℕ → ℚ) :
    (get_history ((generate_simulated_history ⟨n, q0⟩ p t noise).2)).length = n := by
  unfold get_history
  rw [generate_snd_queue, generate_fst_eq_map]
  simp

/-- Witness for C3 at capacity 3, starting from a non-empty stale queue. -/
theorem C3_capacity_invariant_witness :
    (get_history ((generate_simulated_history ⟨3, [7]⟩ 100 Trend.stable
      (fun _ => 1)).2)).length = 3 :=
  C3_capacity_invariant 3 (by norm_num) [7] 100 Trend.stable (fun _ => 1)

/-- Claim C4: on an empty history, `analyze_recommendation` returns the
sentinel ("UNKNOWN", "Not enough data") for every current price. -/
theorem C4_empty_sentinel (n : ℕ) (p : ℚ) :
    analyze_recommendation ⟨n, []⟩ p = some ("UNKNOWN", "Not enough data") :=
  analyze_of_empty ⟨n, []⟩ p rfl

/-- Claim C5 describes intended behavior the code does not implement: a
non-empty zero-mean history (reachable by generating from current price
0) makes `analyze_recommendation` divide by zero before any branch is
examined; the model returns `none`, i.e. the Python code raises an
unguarded `ZeroDivisionError` instead of a defined outcome. -/
theorem C5_zero_average_fault :
    analyze_recommendation
      ((generate_simulated_history ⟨3, []⟩ 0 Trend.stable (fun _ => 1)).2) 5
      = none := by
  have hq : ((generate_simulated_history ⟨3, []⟩ 0 Trend.stable (fun _ => 1)).2).price_queue
      = [0, 0, 0] := by
    rw [generate_snd_queue, generate_fst_eq_map]
    norm_num [List.range_succ, simulatedPrice, truncQ]
  refine analyze_zero_avg _ 5 (by rw [hq]; decide) ?_
  rw [hq]
  unfold mean
  simp

/-- Claim C6: for a fixed trend and fixed draws, generation is a pure
function of `current_price` and `history_size` (the prior queue `q0` is
irrelevant), and the entry at position `i` is the truncation toward zero
of `base * U` for the Stable trend, `base * (1 - 0.02 * steps_back) * U`
for Increasing and `base * (1 + 0.02 * steps_back) * U` for Decreasing,
with `steps_back = history_size - i`. -/
theorem C6_generation_formula (n : ℕ) (q0 : List ℤ) (t : Trend)
    (noise : ℕ → ℚ) (base : ℚ) (i : ℕ) (h : i < n) :
    ((generate_simulated_history ⟨n, q0⟩ base t noise).1)[i]?
      = some (match t with
        | Trend.stable => truncQ (base * noise i)
        | Trend.increasing =>
            truncQ (base * (1 - 2/100 * (((n : ℤ) - (i : ℤ) : ℤ) : ℚ)) * noise i)
        | Trend.decreasing =>
            truncQ (base * (1 + 2/100 * (((n : ℤ) - (i : ℤ) : ℤ) : ℚ)) * noise i)) := by
  rw [generate_fst_eq_map, List.getElem?_map, List.getElem?_range h,
    Option.map_some']
  cases t <;> rfl

/-- Witness for C6: capacity 3 with a stale queue, increasing trend,
draw 1, base 100, position 1. -/
theorem C6_generation_formula_witness :
    ((generate_simulated_history ⟨3, [5]⟩ 100 Trend.increasing (fun _ => 1)).1)[1]?
      = some (truncQ (100 * (1 - 2/100 * (((3 : ℤ) - (1 : ℤ) : ℤ) : ℚ)) * 1)) :=
  C6_generation_formula 3 [5] Trend.increasing (fun _ => 1) 100 1 (by norm_num)

/-- Claim C7: `get_history` after a generation equals exactly the list
that generation returned (oldest first); a second generation is
insensitive to whatever the queue held before (full replacement, no
leftover entries); and `get_history` of a never-generated analyzer is
empty. -/
theorem C7_history_roundtrip (n : ℕ) (q q' : List ℤ) (p : ℚ) (t : Trend)
    (noise : ℕ → ℚ) :
    get_history ((generate_simulated_history ⟨n, q⟩ p t noise).2)
        = (generate_simulated_history ⟨n, q⟩ p t noise).1
      ∧ generate_simulated_history ⟨n, q⟩ p t noise
        = generate_simulated_history ⟨n, q'⟩ p t noise
      ∧ get_history ⟨n, []⟩ = ([] : List ℤ) :=
  ⟨rfl, rfl, rfl⟩

/-- Claim C8 as stated is false: with capacity 51, the Increasing trend,
the in-range draw 1 and current price 100, the oldest generated entry is
-2, a negative price (`factor = 1 - 0.02 * 51 < 0`). -/
theorem C8_counterexample :
    ((generate_simulated_history ⟨51, []⟩ 100 Trend.increasing (fun _ => 1)).1)[0]?
        = some (-2)
      ∧ ((-2 : ℤ) < 0) := by
  refine ⟨?_, by decide⟩
  rw [generate_fst_eq_map, List.getElem?_map,
    List.getElem?_range (by norm_num : (0 : ℕ) < 51), Option.map_some']
  unfold simulatedPrice
  have e : (100 : ℚ) * (1 - 2/100 * ((((51 : ℕ) : ℤ) - ((0 : ℕ) : ℤ) : ℤ) : ℚ)) * 1
      = -2 := by
    norm_num
  rw [e]
  unfold truncQ
  rw [if_pos (show (-2 : ℚ) < 0 by norm_num)]
  decide

/-- Claim C8 (amended): with a non-negative current price and
non-negative draws, every generated entry is non-negative for the Stable
and Decreasing trends at every capacity, and for the Increasing trend
whenever `history_size ≤ 50` (for larger capacities the Increasing factor
turns negative and entries can be negative). -/
theorem C8_amended_nonneg (n : ℕ) (q0 : List ℤ) (base : ℚ) (noise : ℕ → ℚ)
    (t : Trend) (hbase : 0 ≤ base) (hnoise : ∀ i, 0 ≤ noise i)
    (hinc : t = Trend.increasing → n ≤ 50) :
    ∀ x ∈ (generate_simulated_history ⟨n, q0⟩ base t noise).1, 0 ≤ x := by
  intro x hx
  rw [generate_fst_eq_map] at hx
  obtain ⟨i, hi, rfl⟩ := List.mem_map.mp hx
  rw [List.mem_range] at hi
  have hi' : i < n := hi
  cases t with
  | stable =>
      exact truncQ_nonneg (mul_nonneg hbase (hnoise i))
  | increasing =>
      have hn : n ≤ 50 := hinc rfl
      have hfac : (0 : ℚ) ≤ 1 - 2/100 * ((((n : ℕ) : ℤ) - ((i : ℕ) : ℤ) : ℤ) : ℚ) := by
        have h1 : ((n : ℤ) - (i : ℤ)) ≤ 50 := by omega
        have h2 : ((((n : ℕ) : ℤ) - ((i : ℕ) : ℤ) : ℤ) : ℚ) ≤ 50 := by
          exact_mod_cast h1
        nlinarith
      exact truncQ_nonneg (mul_nonneg (mul_nonneg hbase hfac) (hnoise i))
  | decreasing =>
      have hfac : (0 : ℚ) ≤ 1 + 2/100 * ((((n : ℕ) : ℤ) - ((i : ℕ) : ℤ) : ℤ) : ℚ) := by
        have h1 : (0 : ℤ) ≤ (n : ℤ) - (i : ℤ) := by omega
        have h2 : (0 : ℚ) ≤ ((((n : ℕ) : ℤ) - ((i : ℕ) : ℤ) : ℤ) : ℚ) := by
          exact_mod_cast h1
        nlinarith
      exact truncQ_nonneg (mul_nonneg (mul_nonneg hbase hfac) (hnoise i))

/-- Witness for C8 (amended): capacity 2, Increasing trend, draw 1,
base 100; the concrete entry 96 of the generated history is non-negative. -/
theorem C8_amended_nonneg_witness :
    (96 : ℤ) ∈ (generate_simulated_history ⟨2, []⟩ 100 Trend.increasing
        (fun _ => 1)).1
      ∧ 0 ≤ (96 : ℤ) := by
  have hl : (generate_simulated_history ⟨2, []⟩ 100 Trend.increasing
      (fun _ => 1)).1 = [96, 98] := by
    rw [generate_fst_eq_map]
    norm_num [List.range_succ, simulatedPrice, truncQ]
  have hm : (96 : ℤ) ∈ (generate_simulated_history ⟨2, []⟩ 100 Trend.increasing
      (fun _ => 1)).1 := by
    rw [hl]
    decide
  exact ⟨hm, C8_amended_nonneg 2 [] 100 (fun _ => 1) Trend.increasing
    (by norm_num) (fun _ => by norm_num) (fun _ => by norm_num) 96 hm⟩

/-- Claim C9 as stated is false for `history_size = 0`: Python's
`deque(maxlen=0)` is accepted, so construction silently succeeds and
returns an analyzer with capacity 0 instead of failing fast. -/
theorem C9_counterexample : init 0 = Except.ok ⟨0, []⟩ := rfl

/-- Claim C9 (amended): construction raises an error (the `ValueError`
from `deque`) exactly for a negative `history_size`; `history_size = 0`
is silently accepted. -/
theorem C9_amended_negative_fails (h : ℤ) :
    init h = Except.error "maxlen must be non-negative" ↔ h < 0 := by
  unfold init
  by_cases hh : h < 0
  · rw [if_pos hh]
    simp [hh]
  · rw [if_neg hh]
    simp [hh]

/-- Claim C10: on non-empty histories with equal (non-zero) mean and
equal minimum, `analyze_recommendation` returns the same pair for the
same current price — the maximum never influences the result. -/
theorem C10_depends_only_mean_min (a b : PriceAnalyzer) (p : ℚ)
    (ha : a.price_queue ≠ []) (hb : b.price_queue ≠ [])
    (hmean : mean a.price_queue = mean b.price_queue)
    (hmin : listMin a.price_queue = listMin b.price_queue)
    (h0 : mean a.price_queue ≠ 0) :
    analyze_recommendation a p = analyze_recommendation b p := by
  rw [analyze_eq_core a p ha, analyze_eq_core b p hb, hmean, hmin]

/-- Witness for C10: the histories [100] and [100, 100] share mean 100
and minimum 100, and analysis at price 94 agrees on them. -/
theorem C10_depends_only_mean_min_witness :
    analyze_recommendation ⟨1, [100]⟩ 94 = analyze_recommendation ⟨2, [100, 100]⟩ 94 :=
  C10_depends_only_mean_min ⟨1, [100]⟩ ⟨2, [100, 100]⟩ 94 (by decide) (by decide)
    (by rw [mean_single, mean_double]) (by decide)
    (by rw [mean_single]; norm_num)

end PriceTrend
